import Mathlib

/-!
Shallow embedding of the `albert_youtube_steven` plugin (`src/__init__.py`)
and proofs of the spec's claims about it.

JSON values produced by `json.loads` are modelled by `Yt.JVal`; Python
exceptions that the code can raise (`KeyError`, and the `TypeError` /
`AttributeError` family that the code never catches) are modelled by
`Yt.PyErr`; fallible Python code becomes `Except PyErr`.  `str.strip()` is
modelled over ASCII whitespace (`Char.isWhitespace`).  `str()` of a
composite (dict/list) value is abstracted by a fixed marker string: the
code only ever stringifies strings and numbers on the paths the claims
exercise.
-/

namespace Yt

/-- A parsed JSON value (`json.loads` output). -/
inductive JVal where
  | jstr (s : String)
  | jnum (n : Int)
  | jbool (b : Bool)
  | jnull
  | jobj (fields : List (String × JVal))
  | jarr (elems : List JVal)

/-- Python exceptions relevant to this code: `KeyError(key)` (the only kind
the code catches) and everything else (`TypeError`, `AttributeError`,
`IndexError`, `JSONDecodeError`, network errors), which is never caught by
the normalizer. -/
inductive PyErr where
  | keyError (key : String)
  | otherError (msg : String)
deriving DecidableEq, Repr

/-- Dictionary lookup (`k in d` / `d[k]` presence); Python dict keys are
unique, so first match is the value. -/
def dlookup : List (String × JVal) → String → Option JVal
  | [], _ => none
  | (k', v) :: rest, k => if k' == k then some v else dlookup rest k

/-- `d[k]` on a dict: `KeyError` when absent. -/
def getKey (o : List (String × JVal)) (k : String) : Except PyErr JVal :=
  match dlookup o k with
  | some v => .ok v
  | none => .error (.keyError k)

/-- Subscripting `v[k]` on an arbitrary value: `TypeError` when `v` is not a
mapping. -/
def subscriptKey (v : JVal) (k : String) : Except PyErr JVal :=
  match v with
  | .jobj o => getKey o k
  | _ => .error (.otherError "object is not subscriptable")

/-- `v.get(k, dflt)`: `AttributeError` when `v` is not a mapping. -/
def dictGet (v : JVal) (k : String) (dflt : JVal) : Except PyErr JVal :=
  match v with
  | .jobj o => .ok ((dlookup o k).getD dflt)
  | _ => .error (.otherError "object has no attribute get")

/-- Python `str()` of a JSON value; composite reprs are abstracted (never
exercised by the code on claim-relevant paths). -/
def pyStr : JVal → String
  | .jstr s => s
  | .jnum n => toString n
  | .jbool b => if b then "True" else "False"
  | .jnull => "None"
  | .jobj _ => "<dict>"
  | .jarr _ => "<list>"

/-- Python `str.strip()`: drop whitespace from both ends. -/
def pyStrip (s : String) : String :=
  ⟨((s.data.dropWhile Char.isWhitespace).reverse.dropWhile Char.isWhitespace).reverse⟩

/-- `''.join(parts)`. -/
def joinAll : List String → String
  | [] => ""
  | s :: rest => s ++ joinAll rest

/-- `sep.join(parts)`. -/
def joinSep (sep : String) : List String → String
  | [] => ""
  | [s] => s
  | s :: rest => s ++ sep ++ joinSep sep rest

/-- One run of a `runs` list: `str(v['text'])`. -/
def runText (v : JVal) : Except PyErr String :=
  match v with
  | .jobj ro =>
    match dlookup ro "text" with
    | some t => .ok (pyStr t)
    | none => .error (.keyError "text")
  | _ => .error (.otherError "object is not subscriptable")

/-- `text_from(val)` (src line 69): if the field has a `runs` list,
concatenate the `str()` of each run's `text`; otherwise take `simpleText`;
strip the result.  Missing `text`/`simpleText` keys raise `KeyError`;
non-mapping/non-list shapes raise uncaught errors, as in Python. -/
def text_from (val : JVal) : Except PyErr String :=
  match val with
  | .jobj o =>
    match dlookup o "runs" with
    | some rv =>
      match rv with
      | .jarr runs => do
        let parts ← runs.mapM runText
        Except.ok (pyStrip (joinAll parts))
      | _ => .error (.otherError "object is not iterable")
    | none =>
      match dlookup o "simpleText" with
      | some (.jstr s) => .ok (pyStrip s)
      | some _ => .error (.otherError "object has no attribute strip")
      | none => .error (.keyError "simpleText")
  | _ => .error (.otherError "argument is not a mapping")

/-- Normalized display record (`ItemData` dataclass, src line 75); the local
icon path is a string. -/
structure ItemData where
  title : String
  subtext : String
  url : String
  action_name : String
  icon_url : Option String
  icon_path : Option String
deriving DecidableEq, Repr

/-- `url.split('?', 1)[0]`: everything before the first question mark. -/
def stripQuery (s : String) : String :=
  ⟨s.data.takeWhile (fun c => !(c == '?'))⟩

/-- Append `text_from` of an optional subtitle field, exactly as the
`if key in data: subtext.append(text_from(data[key]))` lines do. -/
def appendOpt (o : List (String × JVal)) (k : String) (subtext : List String) :
    Except PyErr (List String) :=
  match dlookup o k with
  | some v => do
    let t ← text_from v
    .ok (subtext ++ [t])
  | none => .ok subtext

/-- `entry_to_item_data(type_, data)` (src line 114).  Recognized tags are
`videoRenderer` and `channelRenderer`; any other tag yields `none` (skip)
without touching `data`, exactly as the Python `match` does.  Field
accesses happen in source order, so the first missing required key
determines the raised `KeyError`. -/
def entry_to_item_data (type_ : String) (data : JVal) : Except PyErr (Option ItemData) :=
  if type_ = "videoRenderer" then
    match data with
    | .jobj o => do
      let vid ← getKey o "videoId"
      let url_path := "watch?v=" ++ pyStr vid
      let st1 ← appendOpt o "lengthText" ["Video"]
      let st2 ← appendOpt o "shortViewCountText" st1
      let st3 ← appendOpt o "publishedTimeText" st2
      let thumbRes ← getKey o "thumbnail"
      let thumbs ← subscriptKey thumbRes "thumbnails"
      let icon_url ←
        match thumbs with
        | .jarr [] => Except.ok (none : Option String)
        | .jarr (t :: _) => do
          let u ← subscriptKey t "url"
          match u with
          | .jstr us => Except.ok (some (stripQuery us))
          | _ => Except.error (.otherError "split on non-string")
        | _ => Except.error (.otherError "object is not a list")
      let title ← text_from (← getKey o "title")
      let url := "https://www.youtube.com/" ++ url_path
      .ok (some ⟨title, joinSep " | " st3, url, "Watch on Youtube", icon_url, none⟩)
    | _ => .error (.otherError "object is not subscriptable")
  else if type_ = "channelRenderer" then
    match data with
    | .jobj o => do
      let cid ← getKey o "channelId"
      let url_path := "channel/" ++ pyStr cid
      let st1 ← appendOpt o "videoCountText" ["Channel"]
      let st2 ← appendOpt o "subscriberCountText" st1
      let title ← text_from (← getKey o "title")
      let url := "https://www.youtube.com/" ++ url_path
      .ok (some ⟨title, joinSep " | " st2, url, "Show on Youtube", none, none⟩)
    | _ => .error (.otherError "object is not subscriptable")
  else
    .ok none

/-- One `critical`-reported malformed-entry error: the missing key (from
`str(e)` of the `KeyError`) together with the raw result record that
`json.dumps(result, indent=4)` serializes (serialization abstracted by
carrying the record itself). -/
structure LogEntry where
  key : String
  raw : List (String × JVal)

/-- Inner loop of `results_to_items_data`: iterate one result dict's
`(type_, data)` pairs; `KeyError` logs (with the whole result) and skips the
pair, other exceptions propagate. -/
def entries_to_items_data (whole : List (String × JVal)) :
    List (String × JVal) → Except PyErr (List ItemData × List LogEntry)
  | [] => .ok ([], [])
  | (type_, data) :: rest =>
    match entry_to_item_data type_ data with
    | .ok none => entries_to_items_data whole rest
    | .ok (some it) => do
      let (is, ls) ← entries_to_items_data whole rest
      .ok (it :: is, ls)
    | .error (.keyError k) => do
      let (is, ls) ← entries_to_items_data whole rest
      .ok (is, ⟨k, whole⟩ :: ls)
    | .error e => .error e

/-- `results_to_items_data(results)` (src line 145): nested loop over result
dicts, accumulating records and error logs in order. -/
def results_to_items_data :
    List (List (String × JVal)) → Except PyErr (List ItemData × List LogEntry)
  | [] => .ok ([], [])
  | result :: rest => do
    let (is, ls) ← entries_to_items_data result result
    let (is2, ls2) ← results_to_items_data rest
    .ok (is ++ is2, ls ++ ls2)

/-! ### Icon fetcher (src line 85) -/

/-- The bundled default icon (`ICON_PATH = Path(__file__).parent /
'icons/youtube.svg'`); the plugin directory is abstracted as a fixed
token. -/
def ICON_PATH : String := "<plugin>/icons/youtube.svg"

/-- `s.split(c)` as a character split (Python `str.split` with a one-char
separator): always returns at least one piece. -/
def splitChar (c : Char) : List Char → List (List Char)
  | [] => [[]]
  | a :: rest =>
    let r := splitChar c rest
    if a == c then [] :: r
    else
      match r with
      | h :: t => (a :: h) :: t
      | [] => [[a]]

/-- Outcome of one icon download attempt (src line 90's `with` statement
evaluates `urlopen` first, then `open('wb')`): `connectFail` models
`urlopen` raising — no file is created; `readWriteFail` models
`response.read()` or `sr.write` raising after `open('wb')` has already
created the file — an empty or partial file remains in the scratch
directory; `success` writes the file fully.  The scratch-directory model
tracks file names, so a partial file is present under its name like a
complete one. -/
inductive FetchResult where
  | connectFail
  | readWriteFail
  | success
deriving DecidableEq, Repr

/-- `download_item_icon(item_data, temp_dir)` run inside a thread-pool
future.  Returns the record as the task leaves it and the list of files
present in the scratch directory afterwards.  Any raised exception dies
inside the future, but the record already holds the assigned `icon_path`;
a connect failure creates no file, while a read/write failure happens
after `open('wb')` created the file.  A URL with fewer than two
`/`-separated pieces raises `IndexError` before the path is assigned
(also swallowed by the future). -/
def download_item_icon (fetch : String → FetchResult) (temp_dir : String)
    (it : ItemData) : ItemData × List String :=
  match it.icon_url with
  | none => (it, [])
  | some u =>
    let parts := splitChar '/' u.data
    if h : 2 ≤ parts.length then
      let video_id : String := ⟨parts.get ⟨parts.length - 2, by omega⟩⟩
      let path := temp_dir ++ "/" ++ video_id ++ ".png"
      let it' := { it with icon_path := some path }
      match fetch u with
      | .connectFail => (it', [])
      | .readWriteFail => (it', [video_id ++ ".png"])
      | .success => (it', [video_id ++ ".png"])
    else
      (it, [])

/-! ### Diagnostic dump (`log_html`, src line 51) -/

/-- A wall-clock instant as read by `time.strftime`. -/
structure DateTime where
  year : Nat
  month : Nat
  day : Nat
  hour : Nat
  minute : Nat
  second : Nat
deriving DecidableEq, Repr

/-- A decimal digit character. -/
def digitChar (n : Nat) : Char := Char.ofNat (48 + n % 10)

/-- Zero-padded two-digit decimal field (`%m`, `%d`, `%H`, `%M`, `%S`). -/
def two (n : Nat) : String := ⟨[digitChar (n / 10), digitChar n]⟩

/-- Four-digit decimal year (`%Y` for years 1000–9999). -/
def four (n : Nat) : String := ⟨[digitChar (n / 1000), digitChar (n / 100), digitChar (n / 10), digitChar n]⟩

/-- `time.strftime('%Y%m%d-%H%M%S')` for an in-range instant. -/
def strftimeYmdHMS (t : DateTime) : String :=
  four t.year ++ two t.month ++ two t.day ++ "-" ++ two t.hour ++ two t.minute ++ two t.second

/-- The diagnostic dump path built by `log_html` (src lines 52–54). -/
def log_html_path (t : DateTime) : String :=
  "/tmp/albert.plugins.youtube_dump-" ++ strftimeYmdHMS t ++ ".html"

/-! ### Search URL (`urlencode`, src line 206) -/

/-- Uppercase hexadecimal digit. -/
def hexDigit (n : Nat) : Char :=
  if n % 16 < 10 then Char.ofNat (48 + n % 16) else Char.ofNat (55 + n % 16)

/-- UTF-8 bytes of a character. -/
def utf8Bytes (c : Char) : List Nat :=
  let n := c.toNat
  if n < 0x80 then [n]
  else if n < 0x800 then [0xC0 + n / 0x40, 0x80 + n % 0x40]
  else if n < 0x10000 then [0xE0 + n / 0x1000, 0x80 + (n / 0x40) % 0x40, 0x80 + n % 0x40]
  else [0xF0 + n / 0x40000, 0x80 + (n / 0x1000) % 0x40, 0x80 + (n / 0x40) % 0x40, 0x80 + n % 0x40]

/-- `urllib.parse.quote_plus` on one character: keep unreserved ASCII, map
space to `+`, percent-encode every other UTF-8 byte. -/
def quotePlusChar (c : Char) : String :=
  if c == ' ' then "+"
  else if c.isAlpha || c.isDigit || c == '_' || c == '.' || c == '-' || c == '~' then String.singleton c
  else joinAll ((utf8Bytes c).map (fun b => ⟨['%', hexDigit (b / 16), hexDigit b]⟩))

/-- `urlencode({'search_query': q})`. -/
def urlencodeSearchQuery (q : String) : String :=
  "search_query=" ++ joinAll (q.data.map quotePlusChar)

/-! ### Query orchestrator (`Plugin.items`, src line 193) -/

/-- One rendered `StandardItem`: id, text, subtext, resolved icon path, and
the actions `(id, label, target)` — `open` opens the URL, `copy` copies a
markdown link. -/
structure EmittedItem where
  id : String
  text : String
  subtext : String
  iconPath : String
  actions : List (String × String × String)
deriving DecidableEq, Repr

/-- Render one normalized record (src lines 240–254): the icon falls back to
the bundled icon only when the record's `icon_path` is unset. -/
def mkItem (i : Nat) (it : ItemData) : EmittedItem :=
  { id := toString i
    text := it.title
    subtext := it.subtext
    iconPath := it.icon_path.getD ICON_PATH
    actions :=
      [("open", it.action_name, it.url),
       ("copy", "Copy to clipboard", "[" ++ it.title ++ "](" ++ it.url ++ ")")] }

/-- The trailing `show_more` item (src lines 256–267); note its action URL
interpolates the raw query string without percent-encoding. -/
def showMoreItem (query_str : String) : EmittedItem :=
  { id := "show_more"
    text := "Show more in browser"
    subtext := ""
    iconPath := ICON_PATH
    actions :=
      [("show_more", "Show more in browser",
        "https://www.youtube.com/results?search_query=" ++ query_str)] }

/-- Build the final item list: one item per record plus `show_more`. -/
def mkItems (items_data : List ItemData) (query_str : String) : List EmittedItem :=
  (items_data.enum.map (fun p => mkItem p.1 p.2)) ++ [showMoreItem query_str]

/-- The environment a query runs against: the query string, the host's
cancellation flag sampled at the n-th `ctx.isValid` check, the search
response body, the behaviour of `re.search(DATA_REGEX, ·)` (group 3),
`json.loads`, the per-URL icon-download outcome, and the wall clock. -/
structure Env where
  query : String
  isValid : Nat → Bool
  response : String
  matcher : String → Option String
  jsonLoads : String → Except PyErr JVal
  iconFetch : String → FetchResult
  time : DateTime

/-- Observable outcome of one `Plugin.items` run: the (at most one) yielded
item batch, diagnostic dumps `(path, bytes)`, search GETs issued, an
uncaught exception if any, the scratch directory children afterwards, the
malformed-entry error logs, and how many debounce sleeps ran. -/
structure QueryOutcome where
  yielded : Option (List EmittedItem)
  dumps : List (String × String)
  searchRequests : List String
  failed : Option PyErr
  tempChildren : List String
  logs : List LogEntry
  sleeps : Nat

/-- Scan `fuel` successive `ctx.isValid` samples starting at index `i`,
returning the index of the first failed check. -/
def firstFalseFrom (isValid : Nat → Bool) (i : Nat) : Nat → Option Nat
  | 0 => none
  | fuel + 1 => if !(isValid i) then some i else firstFalseFrom isValid (i + 1) fuel

/-- Index of the first failed `ctx.isValid` check among the `n` debounce
iterations (src lines 200–203). -/
def firstFalse (isValid : Nat → Bool) (n : Nat) : Option Nat :=
  firstFalseFrom isValid 0 n

/-- Dig `results['contents']['twoColumnSearchResultsRenderer']
['primaryContents']['sectionListRenderer']['contents']` (src lines
220–221); any missing key or wrong shape is an uncaught error. -/
def extract_contents (results : JVal) : Except PyErr (List JVal) := do
  let c1 ← subscriptKey results "contents"
  let c2 ← subscriptKey c1 "twoColumnSearchResultsRenderer"
  let pc ← subscriptKey c2 "primaryContents"
  let slr ← subscriptKey pc "sectionListRenderer"
  let contents ← subscriptKey slr "contents"
  match contents with
  | .jarr l => .ok l
  | _ => .error (.otherError "object is not iterable")

/-- `content_item.get('itemSectionRenderer', {}).get('contents', [])` as a
list of result dicts (src line 225); non-dict elements raise when the inner
loop calls `.items()` on them, modelled at collection time. -/
def section_results (ci : JVal) : Except PyErr (List (List (String × JVal))) := do
  let isr ← dictGet ci "itemSectionRenderer" (.jobj [])
  let cs ← dictGet isr "contents" (.jarr [])
  match cs with
  | .jarr l =>
    l.mapM (fun r =>
      match r with
      | .jobj o => Except.ok o
      | _ => Except.error (PyErr.otherError "object has no attribute items"))
  | _ => .error (.otherError "object is not iterable")

/-- Normalize every section of the parsed structure in order, extending the
accumulated records as src lines 222–226 do. -/
def normalize_contents : List JVal → Except PyErr (List ItemData × List LogEntry)
  | [] => .ok ([], [])
  | ci :: rest => do
    let secs ← section_results ci
    let (is, ls) ← results_to_items_data secs
    let (is2, ls2) ← normalize_contents rest
    .ok (is ++ is2, ls ++ ls2)

/-- Parse the matched blob and normalize it (src lines 219–226). -/
def pipeline (env : Env) (blob : String) : Except PyErr (List ItemData × List LogEntry) := do
  let results ← env.jsonLoads blob
  let contents ← extract_contents results
  normalize_contents contents

/-- The icon-download loop (src lines 233–237): for each record run the
download task, then poll `ctx.isValid`; on a failed poll stop dispatching
(already-dispatched work has completed — the pool is awaited).  Returns the
records (dispatched ones updated), the icon files written, and whether the
loop was cancelled.  Check `k` of the flag is sample `isValid (50 + k)`,
continuing the debounce sample sequence. -/
def iconLoop (isValid : Nat → Bool) (k0 : Nat) (fetch : String → FetchResult)
    (temp_dir : String) : List ItemData → List ItemData × List String × Bool
  | [] => ([], [], false)
  | it :: rest =>
    let (it', ws) := download_item_icon fetch temp_dir it
    if !(isValid k0) then (it' :: rest, ws, true)
    else
      let (rest', ws2, c) := iconLoop isValid (k0 + 1) fetch temp_dir rest
      (it' :: rest', ws ++ ws2, c)

/-- Stage after normalization (src lines 228–270): purge the scratch
directory, run the icon loop (`r` is its result), then emit unless
cancelled. -/
def iconPhase (url query_str : String) (logs : List LogEntry)
    (r : List ItemData × List String × Bool) : QueryOutcome :=
  match r with
  | (processed, writes, cancelled) =>
    if cancelled then
      ⟨none, [], [url], none, writes, logs, 50⟩
    else
      ⟨some (mkItems processed query_str), [], [url], none, writes, logs, 50⟩

/-- Stage after the regex match succeeded (src lines 219–226): `res` is the
parse-and-normalize result; an uncaught exception fails the query. -/
def parsePhase (env : Env) (url temp_dir : String) (tc : List String)
    (res : Except PyErr (List ItemData × List LogEntry)) : QueryOutcome :=
  match res with
  | .error e => ⟨none, [], [url], some e, tc, [], 50⟩
  | .ok (items_data, logs) =>
    iconPhase url (pyStrip env.query) logs
      (iconLoop env.isValid 50 env.iconFetch temp_dir items_data)

/-- Stage after the GET returned (src lines 208–217): `m` is the regex
match result; no match dumps the raw response and ends with zero items. -/
def matchPhase (env : Env) (url temp_dir : String) (tc : List String)
    (m : Option String) : QueryOutcome :=
  match m with
  | none => ⟨none, [(log_html_path env.time, env.response)], [url], none, tc, [], 50⟩
  | some blob => parsePhase env url temp_dir tc (pipeline env blob)

/-- `Plugin.items(ctx)` (src lines 193–270) over an environment, the scratch
directory name and its current children, written as its straight-line
stages.  The thread pool is modelled sequentially: records only ever mutate
their own `icon_path` and write distinct files, so serialization preserves
every observable. -/
def plugin_items (env : Env) (temp_dir : String) (tc0 : List String) : QueryOutcome :=
  if pyStrip env.query = "" then
    ⟨none, [], [], none, tc0, [], 0⟩
  else
    match firstFalse env.isValid 50 with
    | some i => ⟨none, [], [], none, tc0, [], i + 1⟩
    | none =>
      matchPhase env
        ("https://www.youtube.com/results?" ++ urlencodeSearchQuery (pyStrip env.query))
        temp_dir tc0 (env.matcher env.response)

/-! ### Scratch-directory lifecycle (src lines 160–183) -/

/-- The scratch directory name marker (`TMP_PREFIX` in the source). -/
def TMP_PREF : String := "albert_yt_"

/-- Whether a directory name carries the scratch marker (`glob
`TMP_PREFIX*``). -/
def hasTmpMarker (name : String) : Bool := TMP_PREF.data.isPrefixOf name.data

/-- `clean_tmp()` (src line 163): delete every marked directory (children
then the directory) under the system temp dir.  The filesystem is the list
of marked-candidate directories with their children. -/
def clean_tmp (fs : List (String × List String)) : List (String × List String) :=
  fs.filter (fun d => !(hasTmpMarker d.1))

/-- `Plugin.__init__` (src line 176): sweep leftovers, then `mkdtemp` a
fresh directory whose name carries the marker. -/
def plugin_init (fs : List (String × List String)) (fresh : String) :
    List (String × List String) × String :=
  (clean_tmp fs ++ [(fresh, [])], fresh)

/-- `Plugin.__del__` (src line 182): sweep all marked directories. -/
def plugin_del (fs : List (String × List String)) : List (String × List String) :=
  clean_tmp fs

/-! ### Statement-side definitions and concrete fixtures -/

/-- A text field `{simpleText: s}`. -/
def mkSimpleField (s : String) : JVal := .jobj [("simpleText", .jstr s)]

/-- A text field `{runs: [{text: s1}, ...]}`. -/
def mkRunsField (runs : List String) : JVal :=
  .jobj [("runs", .jarr (runs.map (fun s => .jobj [("text", .jstr s)])))]

/-- Subtitle fragments contributed by one optional text field. -/
def optList (o : Option String) : List String :=
  match o with
  | some s => [pyStrip s]
  | none => []

/-- A `videoRenderer` entry with the required fields, any subset of the
optional subtitle fields (as `simpleText`), and a thumbnail list. -/
def mkVideoEntry (vid ttl : String) (lt vt pt : Option String) (thumbs : List String) : JVal :=
  .jobj ([("videoId", .jstr vid), ("title", mkSimpleField ttl)]
    ++ (match lt with | some s => [("lengthText", mkSimpleField s)] | none => [])
    ++ (match vt with | some s => [("shortViewCountText", mkSimpleField s)] | none => [])
    ++ (match pt with | some s => [("publishedTimeText", mkSimpleField s)] | none => [])
    ++ [("thumbnail", .jobj [("thumbnails", .jarr (thumbs.map (fun u => .jobj [("url", .jstr u)])))])])

/-- The spec's concrete `videoRenderer` example entry. -/
def c4entry : JVal := .jobj
  [("videoId", .jstr "abc123"),
   ("title", .jobj [("simpleText", .jstr "Title")]),
   ("lengthText", .jobj [("simpleText", .jstr "3:21")]),
   ("thumbnail", .jobj [("thumbnails", .jarr [.jobj [("url", .jstr "https://i.ytimg.com/vi/abc123/hq.jpg?x=1")]])])]

/-- The spec's concrete `channelRenderer` example entry. -/
def c5entry : JVal := .jobj
  [("channelId", .jstr "UC1"),
   ("title", .jobj [("runs", .jarr [.jobj [("text", .jstr "My ")], .jobj [("text", .jstr "Channel")]])]),
   ("subscriberCountText", .jobj [("simpleText", .jstr "1K subscribers")])]

/-- The stable file base name `icon_url.split('/')[-2]` (defined when the
URL has at least two slash-separated pieces). -/
def iconBaseName (u : String) : String :=
  let parts := splitChar '/' u.data
  if h : 2 ≤ parts.length then ⟨parts.get ⟨parts.length - 2, by omega⟩⟩ else ""

/-- All icon files the download tasks for `l` would write. -/
def iconWrites (f : String → FetchResult) (temp : String) (l : List ItemData) : List String :=
  (l.map (fun it => (download_item_icon f temp it).2)).flatten

/-- Whether a character list has the `YYYYMMDD-HHMMSS` shape: 8 digits, a
dash, 6 digits. -/
def isTimestampShape (l : List Char) : Bool :=
  l.length == 15 && (l.take 8).all Char.isDigit && ((l.drop 8).take 1 == ['-'])
    && (l.drop 9).all Char.isDigit

/-- A fixed wall-clock instant for the concrete runs. -/
def t0 : DateTime := ⟨2026, 10, 12, 1, 2, 3⟩

/-- A parsed search blob whose single section holds the one concrete video
entry. -/
def parsedBlob : JVal := .jobj
  [("contents", .jobj
    [("twoColumnSearchResultsRenderer", .jobj
      [("primaryContents", .jobj
        [("sectionListRenderer", .jobj
          [("contents", .jarr
            [.jobj [("itemSectionRenderer", .jobj
              [("contents", .jarr [.jobj [("videoRenderer", c4entry)]])])]])])])])])]

/-- Concrete environment: well-formed search results, every icon download
fails. -/
def envC1 : Env :=
  { query := "q"
    isValid := fun _ => true
    response := "html"
    matcher := fun _ => some "blob"
    jsonLoads := fun _ => .ok parsedBlob
    iconFetch := fun _ => .connectFail
    time := t0 }

/-- Concrete environment: the embedded-data pattern is absent from the
response. -/
def envC3 : Env :=
  { query := "q"
    isValid := fun _ => true
    response := "<html>changed</html>"
    matcher := fun _ => none
    jsonLoads := fun _ => .error (.otherError "unused")
    iconFetch := fun _ => .success
    time := t0 }

/-- Concrete environment: whitespace-only query. -/
def envC6 : Env :=
  { query := "   "
    isValid := fun _ => true
    response := ""
    matcher := fun _ => none
    jsonLoads := fun _ => .error (.otherError "unused")
    iconFetch := fun _ => .success
    time := t0 }

/-- The record the concrete video entry normalizes to. -/
def itFix : ItemData :=
  ⟨"Title", "Video | 3:21", "https://www.youtube.com/watch?v=abc123", "Watch on Youtube",
   some "https://i.ytimg.com/vi/abc123/hq.jpg", none⟩

/-- Concrete environment: a real query whose response lacks the embedded
data, run against a scratch directory still holding a stale icon. -/
def envC9 : Env :=
  { query := "w"
    isValid := fun _ => true
    response := "<html>no data</html>"
    matcher := fun _ => none
    jsonLoads := fun _ => .error (.otherError "unused")
    iconFetch := fun _ => .success
    time := t0 }

/-- Concrete environment: the host invalidates the query at the fourth
debounce check. -/
def envC8 : Env :=
  { query := "q"
    isValid := fun i => decide (i < 3)
    response := "html"
    matcher := fun _ => some "blob"
    jsonLoads := fun _ => .ok parsedBlob
    iconFetch := fun _ => .success
    time := t0 }

/-! ### Helper lemmas -/

theorem exbind_ok (a : α) (f : α → Except ε β) : (Except.ok a >>= f) = f a := rfl

theorem exbind_err (e : ε) (f : α → Except ε β) :
    ((Except.error e : Except ε α) >>= f) = Except.error e := rfl

theorem dropWhile_self (p : α → Bool) (l : List α) :
    (l.dropWhile p).dropWhile p = l.dropWhile p := by
  induction l with
  | nil => rfl
  | cons a t ih =>
    by_cases hp : p a
    · simp [List.dropWhile_cons, hp, ih]
    · simp [List.dropWhile_cons, hp]

theorem head_false_of_dropWhile_eq_self (p : α → Bool) (a : α) (t : List α)
    (h : (a :: t).dropWhile p = a :: t) : p a = false := by
  by_cases hp : p a
  · exfalso
    rw [List.dropWhile_cons_of_pos hp] at h
    have hle : (t.dropWhile p).length ≤ t.length := (List.dropWhile_sublist (p := p)).length_le
    rw [h] at hle
    simp at hle
  · simpa using hp

theorem dropWhile_eq_self_of_isPrefix (p : α → Bool) (l y : List α)
    (hl : l.dropWhile p = l) (hy : y <+: l) : y.dropWhile p = y := by
  cases y with
  | nil => rfl
  | cons a z =>
    obtain ⟨t, ht⟩ := hy
    cases l with
    | nil => simp at ht
    | cons b m =>
      have hab : a = b := by
        have h2 := ht
        simp at h2
        exact h2.1
      subst hab
      have : p a = false := head_false_of_dropWhile_eq_self p a m hl
      simp [List.dropWhile_cons, this]

theorem pyStrip_idem (s : String) : pyStrip (pyStrip s) = pyStrip s := by
  unfold pyStrip
  set p := Char.isWhitespace with hp
  set d := s.data with hd
  have hdata : (String.mk (((d.dropWhile p).reverse.dropWhile p).reverse)).data
      = ((d.dropWhile p).reverse.dropWhile p).reverse := rfl
  rw [hdata]
  congr 1
  set x := d.dropWhile p with hx
  have hx_clean : x.dropWhile p = x := dropWhile_self p d
  set r := (x.reverse.dropWhile p).reverse with hr
  have hr_pref : r <+: x := by
    have h1 : (x.reverse.dropWhile p).reverse <+: x.reverse.reverse :=
      List.reverse_prefix.mpr (List.dropWhile_suffix p)
    rw [List.reverse_reverse] at h1
    exact h1
  have hr_clean : r.dropWhile p = r := dropWhile_eq_self_of_isPrefix p x r hx_clean hr_pref
  rw [hr_clean, List.reverse_reverse, dropWhile_self]

theorem mapM_runText (runs : List String) :
    List.mapM runText (runs.map (fun s => JVal.jobj [("text", JVal.jstr s)])) = Except.ok runs := by
  induction runs with
  | nil => rfl
  | cons a t ih =>
    simp only [List.map_cons, List.mapM_cons, ih]
    rfl

theorem text_from_stripped (v : JVal) (r : String) (h : text_from v = .ok r) :
    pyStrip r = r := by
  unfold text_from at h
  split at h
  · rename_i o
    split at h
    · rename_i rv hrv
      split at h
      · rename_i runs
        cases hm : List.mapM runText runs with
        | error e =>
          rw [hm, exbind_err] at h
          exact Except.noConfusion h
        | ok parts =>
          rw [hm, exbind_ok] at h
          injection h with h1
          rw [← h1]
          exact pyStrip_idem _
      · exact Except.noConfusion h
    · split at h
      · rename_i s hs
        injection h with h1
        rw [← h1]
        exact pyStrip_idem _
      · exact Except.noConfusion h
      · exact Except.noConfusion h
  · exact Except.noConfusion h

theorem results_cons_keyError (tag : String) (data : JVal) (k : String)
    (results : List (List (String × JVal))) (items : List ItemData) (logs : List LogEntry)
    (hE : entry_to_item_data tag data = .error (.keyError k))
    (hR : results_to_items_data results = .ok (items, logs)) :
    results_to_items_data ([(tag, data)] :: results) =
      .ok (items, ⟨k, [(tag, data)]⟩ :: logs) := by
  have hI : entries_to_items_data [(tag, data)] [(tag, data)] = .ok ([], [⟨k, [(tag, data)]⟩]) := by
    simp only [entries_to_items_data, hE]
    rfl
  show (entries_to_items_data [(tag, data)] [(tag, data)] >>= fun p =>
      match p with
      | (is, ls) => results_to_items_data results >>= fun q =>
        match q with
        | (is2, ls2) => Except.ok (is ++ is2, ls ++ ls2)) = _
  rw [hI, exbind_ok, hR]
  rfl

theorem digitChar_isDigit (n : Nat) : (digitChar n).isDigit = true := by
  have hlt : n % 10 < 10 := Nat.mod_lt _ (by omega)
  have h : ∀ r, r < 10 → (Char.ofNat (48 + r)).isDigit = true := by decide
  exact h _ hlt

theorem strftime_shape (t : DateTime) : isTimestampShape (strftimeYmdHMS t).data = true := by
  show isTimestampShape
    [digitChar (t.year / 1000), digitChar (t.year / 100), digitChar (t.year / 10), digitChar t.year,
     digitChar (t.month / 10), digitChar t.month, digitChar (t.day / 10), digitChar t.day, '-',
     digitChar (t.hour / 10), digitChar t.hour, digitChar (t.minute / 10), digitChar t.minute,
     digitChar (t.second / 10), digitChar t.second] = true
  simp [isTimestampShape, digitChar_isDigit]

theorem plugin_items_proceed (env : Env) (temp_dir : String) (tc : List String)
    (hq : pyStrip env.query ≠ "") (hf : firstFalse env.isValid 50 = none) :
    plugin_items env temp_dir tc =
      matchPhase env
        ("https://www.youtube.com/results?" ++ urlencodeSearchQuery (pyStrip env.query))
        temp_dir tc (env.matcher env.response) := by
  simp only [plugin_items]
  rw [if_neg hq, hf]

theorem matchPhase_some (env : Env) (url temp_dir : String) (tc : List String) (blob : String) :
    matchPhase env url temp_dir tc (some blob) =
      parsePhase env url temp_dir tc (pipeline env blob) := rfl

theorem parsePhase_ok (env : Env) (url temp_dir : String) (tc : List String)
    (idata : List ItemData) (logs : List LogEntry) :
    parsePhase env url temp_dir tc (.ok (idata, logs)) =
      iconPhase url (pyStrip env.query) logs
        (iconLoop env.isValid 50 env.iconFetch temp_dir idata) := rfl

theorem download_record_indep (f g : String → FetchResult) (temp : String) (it : ItemData) :
    (download_item_icon f temp it).1 = (download_item_icon g temp it).1 := by
  unfold download_item_icon
  cases it.icon_url with
  | none => rfl
  | some u =>
    simp only []
    split
    · rename_i h
      cases f u <;> cases g u <;> rfl
    · rfl

theorem iconLoop_fetch_agnostic (v : Nat → Bool) (f g : String → FetchResult) (temp : String) :
    ∀ (l : List ItemData) (k0 : Nat),
      (iconLoop v k0 f temp l).1 = (iconLoop v k0 g temp l).1 ∧
      (iconLoop v k0 f temp l).2.2 = (iconLoop v k0 g temp l).2.2 := by
  intro l
  induction l with
  | nil => intro k0; exact ⟨rfl, rfl⟩
  | cons it rest ih =>
    intro k0
    rcases hdf : download_item_icon f temp it with ⟨it1, ws1⟩
    rcases hdg : download_item_icon g temp it with ⟨it2, ws2⟩
    have hrec : it1 = it2 := by
      have h0 := download_record_indep f g temp it
      rw [hdf, hdg] at h0
      exact h0
    subst hrec
    simp only [iconLoop, hdf, hdg]
    by_cases hv : v k0
    · simp only [hv]
      rcases hrf : iconLoop v (k0 + 1) f temp rest with ⟨p1, w1, c1⟩
      rcases hrg : iconLoop v (k0 + 1) g temp rest with ⟨p2, w2, c2⟩
      have hih := ih (k0 + 1)
      rw [hrf, hrg] at hih
      obtain ⟨hihp, hihc⟩ := hih
      simp at hihp hihc
      simp [hihp, hihc]
    · simp only [Bool.not_eq_true] at hv
      simp [hv]

theorem download_no_write (f : String → FetchResult) (temp : String) (it : ItemData) (u : String)
    (hiu : it.icon_url = some u) (hf : f u = .connectFail) :
    (download_item_icon f temp it).2 = [] := by
  unfold download_item_icon
  rw [hiu]
  simp only []
  split
  · rw [hf]
  · rfl

theorem download_partial_file (f : String → FetchResult) (temp : String) (it : ItemData) (u : String)
    (hiu : it.icon_url = some u) (hlen : 2 ≤ (splitChar '/' u.data).length)
    (hf : f u = .readWriteFail) :
    (download_item_icon f temp it).2 = [iconBaseName u ++ ".png"] := by
  unfold download_item_icon iconBaseName
  rw [hiu]
  simp only []
  rw [dif_pos hlen, dif_pos hlen, hf]

theorem download_path_assigned (f : String → FetchResult) (temp : String) (it : ItemData) (u : String)
    (hiu : it.icon_url = some u) (hlen : 2 ≤ (splitChar '/' u.data).length) :
    (download_item_icon f temp it).1 =
      { it with icon_path := some (temp ++ "/" ++ iconBaseName u ++ ".png") } := by
  unfold download_item_icon iconBaseName
  rw [hiu]
  simp only []
  rw [dif_pos hlen, dif_pos hlen]
  cases f u <;> rfl

theorem plugin_items_fetch_indep (env : Env) (g : String → FetchResult)
    (temp_dir : String) (tc : List String) :
    (plugin_items env temp_dir tc).yielded
        = (plugin_items { env with iconFetch := g } temp_dir tc).yielded
    ∧ (plugin_items env temp_dir tc).failed
        = (plugin_items { env with iconFetch := g } temp_dir tc).failed
    ∧ (plugin_items env temp_dir tc).dumps
        = (plugin_items { env with iconFetch := g } temp_dir tc).dumps
    ∧ (plugin_items env temp_dir tc).searchRequests
        = (plugin_items { env with iconFetch := g } temp_dir tc).searchRequests
    ∧ (plugin_items env temp_dir tc).logs
        = (plugin_items { env with iconFetch := g } temp_dir tc).logs
    ∧ (plugin_items env temp_dir tc).sleeps
        = (plugin_items { env with iconFetch := g } temp_dir tc).sleeps := by
  by_cases hq : pyStrip env.query = ""
  · have e1 : plugin_items env temp_dir tc = ⟨none, [], [], none, tc, [], 0⟩ := by
      simp only [plugin_items]; rw [if_pos hq]
    have e2 : plugin_items { env with iconFetch := g } temp_dir tc
        = ⟨none, [], [], none, tc, [], 0⟩ := by
      simp only [plugin_items]
      rw [if_pos (show pyStrip ({ env with iconFetch := g } : Env).query = "" from hq)]
    rw [e1, e2]
    exact ⟨rfl, rfl, rfl, rfl, rfl, rfl⟩
  · cases hf : firstFalse env.isValid 50 with
    | some i =>
      have e1 : plugin_items env temp_dir tc = ⟨none, [], [], none, tc, [], i + 1⟩ := by
        simp only [plugin_items]; rw [if_neg hq, hf]
      have e2 : plugin_items { env with iconFetch := g } temp_dir tc
          = ⟨none, [], [], none, tc, [], i + 1⟩ := by
        simp only [plugin_items]
        rw [if_neg (show ¬(pyStrip ({ env with iconFetch := g } : Env).query = "") from hq),
            show firstFalse ({ env with iconFetch := g } : Env).isValid 50 = some i from hf]
      rw [e1, e2]
      exact ⟨rfl, rfl, rfl, rfl, rfl, rfl⟩
    | none =>
      have e1 := plugin_items_proceed env temp_dir tc hq hf
      have e2 := plugin_items_proceed { env with iconFetch := g } temp_dir tc hq hf
      cases hm : env.matcher env.response with
      | none =>
        rw [e1, e2, hm]
        exact ⟨rfl, rfl, rfl, rfl, rfl, rfl⟩
      | some blob =>
        rw [e1, e2, hm]
        rw [matchPhase_some, matchPhase_some]
        cases hp : pipeline env blob with
        | error e =>
          rw [show pipeline { env with iconFetch := g } blob = Except.error e from hp]
          exact ⟨rfl, rfl, rfl, rfl, rfl, rfl⟩
        | ok pr =>
          obtain ⟨idata, logs⟩ := pr
          rw [show pipeline { env with iconFetch := g } blob = Except.ok (idata, logs) from hp]
          rw [parsePhase_ok, parsePhase_ok]
          have hag := iconLoop_fetch_agnostic env.isValid env.iconFetch g temp_dir idata 50
          rcases h1 : iconLoop env.isValid 50 env.iconFetch temp_dir idata with ⟨p1, w1, c1⟩
          rcases h2 : iconLoop env.isValid 50 g temp_dir idata with ⟨p2, w2, c2⟩
          rw [h1, h2] at hag
          simp only [] at hag
          obtain ⟨hps, hcs⟩ := hag
          subst hps
          subst hcs
          cases c1 <;> exact ⟨rfl, rfl, rfl, rfl, rfl, rfl⟩

theorem iconLoop_cancel (v : Nat → Bool) (f : String → FetchResult) (temp : String) :
    ∀ (j : Nat) (l : List ItemData) (k0 : Nat), j < l.length →
      (∀ j', j' < j → v (k0 + j') = true) → v (k0 + j) = false →
      iconLoop v k0 f temp l =
        ((l.take (j + 1)).map (fun it => (download_item_icon f temp it).1) ++ l.drop (j + 1),
         iconWrites f temp (l.take (j + 1)), true) := by
  intro j
  induction j with
  | zero =>
    intro l k0 hlen hpre hstop
    cases l with
    | nil => simp at hlen
    | cons it rest =>
      rcases hd : download_item_icon f temp it with ⟨it', ws⟩
      have hv : v k0 = false := by simpa using hstop
      simp only [iconLoop, hd, hv]
      simp [iconWrites, hd]
  | succ j ih =>
    intro l k0 hlen hpre hstop
    cases l with
    | nil => simp at hlen
    | cons it rest =>
      rcases hd : download_item_icon f temp it with ⟨it', ws⟩
      have hv : v k0 = true := by
        have := hpre 0 (by omega)
        simpa using this
      simp only [iconLoop, hd, hv]
      have hrec := ih rest (k0 + 1) (by simpa using hlen)
        (fun j' hj' => by
          have := hpre (j' + 1) (by omega)
          rwa [show k0 + (j' + 1) = k0 + 1 + j' by omega] at this)
        (by
          have := hstop
          rwa [show k0 + (j + 1) = k0 + 1 + j by omega] at this)
      rw [hrec]
      simp [iconWrites, hd]

theorem firstFalseFrom_congr (f g : Nat → Bool) :
    ∀ (fuel i : Nat), (∀ k, i ≤ k → k < i + fuel → f k = g k) →
      firstFalseFrom f i fuel = firstFalseFrom g i fuel := by
  intro fuel
  induction fuel with
  | zero => intro i h; rfl
  | succ n ih =>
    intro i h
    have hi : f i = g i := h i (by omega) (by omega)
    simp only [firstFalseFrom, hi]
    by_cases hgi : g i
    · simp only [hgi]
      simp
      exact ih (i + 1) (fun k hk1 hk2 => h k (by omega) (by omega))
    · simp [hgi]

theorem iconLoop_valid_congr (f : String → FetchResult) (temp : String) (v w : Nat → Bool) :
    ∀ (l : List ItemData) (k0 : Nat), (∀ j, j < l.length → v (k0 + j) = w (k0 + j)) →
      iconLoop v k0 f temp l = iconLoop w k0 f temp l := by
  intro l
  induction l with
  | nil => intro k0 h; rfl
  | cons it rest ih =>
    intro k0 h
    rcases hd : download_item_icon f temp it with ⟨it', ws⟩
    have h0 : v k0 = w k0 := by simpa using h 0 (by simp)
    simp only [iconLoop, hd, h0]
    by_cases hw : w k0
    · simp only [hw]
      simp
      have := ih (k0 + 1) (fun j hj => by
        have h2 := h (j + 1) (by simpa using Nat.succ_lt_succ hj)
        rwa [show k0 + (j + 1) = k0 + 1 + j by omega] at h2)
      rw [this]
      exact ⟨rfl, rfl, rfl⟩
    · simp [hw]

theorem filter_marker_clean (fs : List (String × List String)) :
    (clean_tmp fs).filter (fun d => hasTmpMarker d.1) = [] := by
  unfold clean_tmp
  rw [List.filter_filter]
  apply List.filter_eq_nil_iff.mpr
  intro a ha
  simp

/-! ### Claims -/

/-- C2: an entry with an unrecognized tag contributes zero records and no
error log (the batch result is unchanged); an entry with a recognized tag
whose evaluation raises `KeyError k` contributes zero records and exactly
one log entry naming `k`, while the rest of the batch is still
normalized. -/
theorem c2_entry_skip_and_log :
    (∀ (tag : String) (data : JVal) (results : List (List (String × JVal))),
      tag ≠ "videoRenderer" → tag ≠ "channelRenderer" →
      results_to_items_data ([(tag, data)] :: results) = results_to_items_data results)
    ∧ (∀ (tag : String) (data : JVal) (k : String) (results : List (List (String × JVal)))
        (items : List ItemData) (logs : List LogEntry),
      entry_to_item_data tag data = .error (.keyError k) →
      results_to_items_data results = .ok (items, logs) →
      results_to_items_data ([(tag, data)] :: results) =
        .ok (items, ⟨k, [(tag, data)]⟩ :: logs)) := by
  constructor
  · intro tag data results h1 h2
    have hE : entry_to_item_data tag data = .ok none := by
      unfold entry_to_item_data
      rw [if_neg h1, if_neg h2]
    have hI : entries_to_items_data [(tag, data)] [(tag, data)] = .ok ([], []) := by
      simp only [entries_to_items_data, hE]
    show (entries_to_items_data [(tag, data)] [(tag, data)] >>= fun p =>
        match p with
        | (is, ls) => results_to_items_data results >>= fun q =>
          match q with
          | (is2, ls2) => Except.ok (is ++ is2, ls ++ ls2)) = results_to_items_data results
    rw [hI, exbind_ok]
    cases hr : results_to_items_data results with
    | error e => rfl
    | ok q => obtain ⟨is2, ls2⟩ := q; rfl
  · intro tag data k results items logs hE hR
    exact results_cons_keyError tag data k results items logs hE hR

/-- C2 witness: a `promoRenderer` entry is silently dropped, and a
`videoRenderer` entry missing `videoId` is dropped with exactly one log
naming `videoId`. -/
theorem c2_entry_skip_and_log_witness :
    results_to_items_data [[("promoRenderer", JVal.jobj [])]] = .ok ([], [])
    ∧ results_to_items_data [[("videoRenderer", JVal.jobj [])]] =
        .ok ([], [⟨"videoId", [("videoRenderer", JVal.jobj [])]⟩]) :=
  ⟨c2_entry_skip_and_log.1 "promoRenderer" (JVal.jobj []) [] (by decide) (by decide),
   c2_entry_skip_and_log.2 "videoRenderer" (JVal.jobj []) "videoId" [] [] [] (by rfl) (by rfl)⟩

/-- C4: the spec's concrete `videoRenderer` entry normalizes to the claimed
record (URL, subtitle, action label, query-stripped icon URL), and in
general the optional fragments are appended after the leading `Video`
label in the fixed order length text, short view-count text,
published-time text, joined by the separator. -/
theorem c4_video_normalization :
    (entry_to_item_data "videoRenderer" c4entry = .ok (some
      ⟨"Title", "Video | 3:21", "https://www.youtube.com/watch?v=abc123", "Watch on Youtube",
       some "https://i.ytimg.com/vi/abc123/hq.jpg", none⟩))
    ∧ (∀ (vid ttl : String) (lt vt pt : Option String) (u : String) (rest : List String),
      entry_to_item_data "videoRenderer" (mkVideoEntry vid ttl lt vt pt (u :: rest)) =
        .ok (some
          ⟨pyStrip ttl,
           joinSep " | " (["Video"] ++ optList lt ++ optList vt ++ optList pt),
           "https://www.youtube.com/watch?v=" ++ vid,
           "Watch on Youtube", some (stripQuery u), none⟩)) := by
  constructor
  · rfl
  · intro vid ttl lt vt pt u rest
    cases lt <;> cases vt <;> cases pt <;> rfl

/-- C5: the spec's concrete `channelRenderer` entry normalizes to the
claimed record (run-list title concatenated, channel URL, `Show on
Youtube`), and every successfully normalized channel record carries no
remote icon URL. -/
theorem c5_channel_normalization :
    (entry_to_item_data "channelRenderer" c5entry = .ok (some
      ⟨"My Channel", "Channel | 1K subscribers", "https://www.youtube.com/channel/UC1",
       "Show on Youtube", none, none⟩))
    ∧ (∀ data r, entry_to_item_data "channelRenderer" data = .ok (some r) → r.icon_url = none) := by
  constructor
  · rfl
  · intro data r h
    unfold entry_to_item_data at h
    rw [if_neg (show ¬("channelRenderer" = "videoRenderer") by decide),
        if_pos (show "channelRenderer" = "channelRenderer" from rfl)] at h
    split at h
    · rename_i o
      cases h1 : getKey o "channelId" with
      | error e => rw [h1, exbind_err] at h; exact Except.noConfusion h
      | ok cid =>
        rw [h1, exbind_ok] at h
        cases h2 : appendOpt o "videoCountText" ["Channel"] with
        | error e => rw [h2, exbind_err] at h; exact Except.noConfusion h
        | ok st1 =>
          rw [h2, exbind_ok] at h
          cases h3 : appendOpt o "subscriberCountText" st1 with
          | error e => rw [h3, exbind_err] at h; exact Except.noConfusion h
          | ok st2 =>
            rw [h3, exbind_ok] at h
            cases h4 : getKey o "title" with
            | error e => rw [h4, exbind_err] at h; exact Except.noConfusion h
            | ok tv =>
              rw [h4, exbind_ok] at h
              cases h5 : text_from tv with
              | error e => rw [h5, exbind_err] at h; exact Except.noConfusion h
              | ok title =>
                rw [h5, exbind_ok] at h
                injection h with h6
                injection h6 with h7
                rw [← h7]
    · exact Except.noConfusion h

/-- C5 witness: the generic no-icon-URL conjunct applied to the concrete
channel entry. -/
theorem c5_channel_normalization_witness :
    (⟨"My Channel", "Channel | 1K subscribers", "https://www.youtube.com/channel/UC1",
      "Show on Youtube", none, none⟩ : ItemData).icon_url = none :=
  c5_channel_normalization.2 c5entry
    ⟨"My Channel", "Channel | 1K subscribers", "https://www.youtube.com/channel/UC1",
     "Show on Youtube", none, none⟩ (by rfl)

/-- C7: `text_from` concatenates a run list in order for any run count and
strips the result; a plain `simpleText` field is stripped; every successful
output is already stripped; and re-applying `text_from` to a field wrapping
its own output returns the same string. -/
theorem c7_text_from_rules :
    (∀ runs : List String, text_from (mkRunsField runs) = .ok (pyStrip (joinAll runs)))
    ∧ (∀ s : String, text_from (mkSimpleField s) = .ok (pyStrip s))
    ∧ (∀ v r, text_from v = .ok r → pyStrip r = r)
    ∧ (∀ s r, text_from (mkSimpleField s) = .ok r → text_from (mkSimpleField r) = .ok r) := by
  refine ⟨?_, ?_, text_from_stripped, ?_⟩
  · intro runs
    show (List.mapM runText (runs.map (fun s => JVal.jobj [("text", JVal.jstr s)])) >>=
      fun parts => Except.ok (pyStrip (joinAll parts))) = Except.ok (pyStrip (joinAll runs))
    rw [mapM_runText, exbind_ok]
  · intro s
    rfl
  · intro s r h
    have h0 : text_from (mkSimpleField s) = .ok (pyStrip s) := rfl
    rw [h0] at h
    injection h with h1
    rw [← h1]
    show Except.ok (pyStrip (pyStrip s)) = Except.ok (pyStrip s)
    rw [pyStrip_idem]

/-- C7 witness: the stripped-output and idempotence conjuncts applied at
concrete fields. -/
theorem c7_text_from_rules_witness :
    pyStrip "hi" = "hi" ∧ text_from (mkSimpleField "a") = .ok "a" :=
  ⟨c7_text_from_rules.2.2.1 (mkSimpleField " hi ") "hi" (by rfl),
   c7_text_from_rules.2.2.2 " a " "a" (by rfl)⟩

/-- C10: a recognized entry whose title mapping has neither `simpleText`
nor `runs` makes `text_from` raise `KeyError('simpleText')`; the batch
normalizer catches it, logs exactly that key with the raw entry, skips
only that entry, and still normalizes the rest of the batch. -/
theorem c10_missing_text_keys (t : List (String × JVal)) (cid : String)
    (results : List (List (String × JVal))) (items : List ItemData) (logs : List LogEntry)
    (hsimple : dlookup t "simpleText" = none) (hruns : dlookup t "runs" = none)
    (hR : results_to_items_data results = .ok (items, logs)) :
    entry_to_item_data "channelRenderer"
        (.jobj [("channelId", .jstr cid), ("title", .jobj t)]) = .error (.keyError "simpleText")
    ∧ results_to_items_data
        ([("channelRenderer", .jobj [("channelId", .jstr cid), ("title", .jobj t)])] :: results) =
      .ok (items, ⟨"simpleText",
        [("channelRenderer", .jobj [("channelId", .jstr cid), ("title", .jobj t)])]⟩ :: logs) := by
  have htf : text_from (.jobj t) = .error (.keyError "simpleText") := by
    simp only [text_from, hruns, hsimple]
  have hentry : entry_to_item_data "channelRenderer"
      (.jobj [("channelId", .jstr cid), ("title", .jobj t)]) =
      (text_from (.jobj t) >>= fun title => Except.ok (some
        ⟨title, "Channel", "https://www.youtube.com/channel/" ++ cid,
         "Show on Youtube", none, none⟩)) := rfl
  have hE : entry_to_item_data "channelRenderer"
      (.jobj [("channelId", .jstr cid), ("title", .jobj t)]) = .error (.keyError "simpleText") := by
    rw [hentry, htf, exbind_err]
  exact ⟨hE, results_cons_keyError _ _ _ _ _ _ hE hR⟩

/-- C10 witness: the malformed-title channel entry followed by a good batch
tail, at concrete inputs. -/
theorem c10_missing_text_keys_witness :
    entry_to_item_data "channelRenderer"
        (.jobj [("channelId", .jstr "UC9"), ("title", .jobj [("bold", .jstr "x")])]) =
      .error (.keyError "simpleText")
    ∧ results_to_items_data
        ([("channelRenderer", .jobj [("channelId", .jstr "UC9"), ("title", .jobj [("bold", .jstr "x")])])] :: [[("channelRenderer", c5entry)]]) =
      .ok ([⟨"My Channel", "Channel | 1K subscribers", "https://www.youtube.com/channel/UC1",
             "Show on Youtube", none, none⟩],
           [⟨"simpleText",
             [("channelRenderer", .jobj [("channelId", .jstr "UC9"), ("title", .jobj [("bold", .jstr "x")])])]⟩]) :=
  c10_missing_text_keys [("bold", .jstr "x")] "UC9" [[("channelRenderer", c5entry)]]
    [⟨"My Channel", "Channel | 1K subscribers", "https://www.youtube.com/channel/UC1",
      "Show on Youtube", none, none⟩] [] (by rfl) (by rfl) (by rfl)

/-- C1 counterexample: with every icon download failing, the record does
NOT keep `icon_path = none` — `download_item_icon` assigns the scratch path
before the fallible fetch — so the emitted item references the dangling
scratch path (no file was written: the scratch directory is empty), not the
bundled default icon. -/
theorem c1_icon_failure_counterexample :
    (plugin_items envC1 "/tmp/albert_yt_t" []).yielded =
      some [⟨"0", "Title", "Video | 3:21", "/tmp/albert_yt_t/abc123.png",
             [("open", "Watch on Youtube", "https://www.youtube.com/watch?v=abc123"),
              ("copy", "Copy to clipboard", "[Title](https://www.youtube.com/watch?v=abc123)")]⟩,
            showMoreItem "q"]
    ∧ (plugin_items envC1 "/tmp/albert_yt_t" []).tempChildren = []
    ∧ "/tmp/albert_yt_t/abc123.png" ≠ ICON_PATH :=
  ⟨rfl, rfl, by decide⟩

/-- C1 amended: icon-download failures are swallowed and never fail the
query or lose items — every observable of the query except the scratch
directory contents is independent of the downloads' outcomes; a connection
failure (`urlopen` raising) creates no file, while a read/write failure
after `open('wb')` leaves the created (empty or partial) file in the
scratch directory; and in either case a record whose icon URL has at least
two slash-separated pieces keeps the scratch path assigned before the
fetch, so the emitted item falls back to the bundled icon only when the
path was never assigned. -/
theorem c1_amended_icon_failure :
    (∀ (env : Env) (g : String → FetchResult) (temp_dir : String) (tc : List String),
      (plugin_items env temp_dir tc).yielded
          = (plugin_items { env with iconFetch := g } temp_dir tc).yielded
      ∧ (plugin_items env temp_dir tc).failed
          = (plugin_items { env with iconFetch := g } temp_dir tc).failed
      ∧ (plugin_items env temp_dir tc).dumps
          = (plugin_items { env with iconFetch := g } temp_dir tc).dumps
      ∧ (plugin_items env temp_dir tc).searchRequests
          = (plugin_items { env with iconFetch := g } temp_dir tc).searchRequests
      ∧ (plugin_items env temp_dir tc).logs
          = (plugin_items { env with iconFetch := g } temp_dir tc).logs
      ∧ (plugin_items env temp_dir tc).sleeps
          = (plugin_items { env with iconFetch := g } temp_dir tc).sleeps)
    ∧ (∀ (f : String → FetchResult) (temp : String) (it : ItemData) (u : String),
      it.icon_url = some u → f u = .connectFail → (download_item_icon f temp it).2 = [])
    ∧ (∀ (f : String → FetchResult) (temp : String) (it : ItemData) (u : String),
      it.icon_url = some u → 2 ≤ (splitChar '/' u.data).length →
      f u = .readWriteFail →
      (download_item_icon f temp it).2 = [iconBaseName u ++ ".png"])
    ∧ (∀ (f : String → FetchResult) (temp : String) (it : ItemData) (u : String),
      it.icon_url = some u → 2 ≤ (splitChar '/' u.data).length →
      (download_item_icon f temp it).1 =
        { it with icon_path := some (temp ++ "/" ++ iconBaseName u ++ ".png") }) :=
  ⟨plugin_items_fetch_indep, download_no_write, download_partial_file, download_path_assigned⟩

/-- C1 amended witness: for the concrete record, a connect failure writes
nothing, a read/write failure leaves the created file behind, and either
way the scratch path is assigned. -/
theorem c1_amended_icon_failure_witness :
    (download_item_icon (fun _ => .connectFail) "/tmp/albert_yt_t" itFix).2 = []
    ∧ (download_item_icon (fun _ => .readWriteFail) "/tmp/albert_yt_t" itFix).2 =
      [iconBaseName "https://i.ytimg.com/vi/abc123/hq.jpg" ++ ".png"]
    ∧ (download_item_icon (fun _ => .connectFail) "/tmp/albert_yt_t" itFix).1 =
      { itFix with icon_path := some ("/tmp/albert_yt_t" ++ "/" ++
        iconBaseName "https://i.ytimg.com/vi/abc123/hq.jpg" ++ ".png") } :=
  ⟨c1_amended_icon_failure.2.1 (fun _ => .connectFail) "/tmp/albert_yt_t" itFix
      "https://i.ytimg.com/vi/abc123/hq.jpg" (by rfl) (by rfl),
   c1_amended_icon_failure.2.2.1 (fun _ => .readWriteFail) "/tmp/albert_yt_t" itFix
      "https://i.ytimg.com/vi/abc123/hq.jpg" (by rfl) (by decide) (by rfl),
   c1_amended_icon_failure.2.2.2 (fun _ => .connectFail) "/tmp/albert_yt_t" itFix
      "https://i.ytimg.com/vi/abc123/hq.jpg" (by rfl) (by decide)⟩

/-- C3: when the embedded-data pattern is absent, the query does not raise:
it writes exactly one diagnostic file holding the raw response at the
timestamped dump path, issues the one search GET, and ends with zero items;
a diagnostic dump is written only on this no-match path; and the dump
path's timestamp component always has the `YYYYMMDD-HHMMSS` shape. -/
theorem c3_extraction_failure_dump :
    (∀ (env : Env) (temp_dir : String) (tc : List String),
      pyStrip env.query ≠ "" → firstFalse env.isValid 50 = none →
      env.matcher env.response = none →
      plugin_items env temp_dir tc =
        ⟨none, [(log_html_path env.time, env.response)],
         ["https://www.youtube.com/results?" ++ urlencodeSearchQuery (pyStrip env.query)],
         none, tc, [], 50⟩)
    ∧ (∀ (env : Env) (temp_dir : String) (tc : List String),
      (plugin_items env temp_dir tc).dumps ≠ [] → env.matcher env.response = none)
    ∧ (∀ t : DateTime, isTimestampShape (strftimeYmdHMS t).data = true) := by
  refine ⟨?_, ?_, strftime_shape⟩
  · intro env temp_dir tc h1 h2 h3
    simp only [plugin_items]
    rw [if_neg h1, h2, h3]
    rfl
  · intro env temp_dir tc h
    by_cases hq : pyStrip env.query = ""
    · exfalso
      apply h
      simp only [plugin_items]
      rw [if_pos hq]
    · cases hf : firstFalse env.isValid 50 with
      | some i =>
        exfalso
        apply h
        simp only [plugin_items]
        rw [if_neg hq, hf]
      | none =>
        cases hm : env.matcher env.response with
        | none => rfl
        | some blob =>
          exfalso
          apply h
          simp only [plugin_items]
          rw [if_neg hq, hf, hm]
          show (matchPhase env _ temp_dir tc (some blob)).dumps = []
          simp only [matchPhase]
          cases hp : pipeline env blob with
          | error e => rfl
          | ok pr =>
            obtain ⟨idata, logs⟩ := pr
            simp only [parsePhase]
            rcases hIL : iconLoop env.isValid 50 env.iconFetch temp_dir idata with ⟨pr2, ws, cflag⟩
            cases cflag <;> rfl

/-- C3 witness: a concrete no-match run writes exactly the one dump and
yields nothing. -/
theorem c3_extraction_failure_dump_witness :
    plugin_items envC3 "/tmp/albert_yt_t" [] =
      ⟨none, [(log_html_path envC3.time, envC3.response)],
       ["https://www.youtube.com/results?" ++ urlencodeSearchQuery (pyStrip envC3.query)],
       none, [], [], 50⟩ :=
  c3_extraction_failure_dump.1 envC3 "/tmp/albert_yt_t" [] (by decide) (by rfl) (by rfl)

/-- C6: a query that is empty after trimming ends immediately: zero items,
no debounce sleep, no search URL requested, no dump, no scratch-directory
change. -/
theorem c6_empty_query_noop (env : Env) (temp_dir : String) (tc : List String)
    (h : pyStrip env.query = "") :
    plugin_items env temp_dir tc = ⟨none, [], [], none, tc, [], 0⟩ := by
  simp only [plugin_items]
  rw [if_pos h]

/-- C6 witness: the whitespace-only query at concrete inputs. -/
theorem c6_empty_query_noop_witness :
    plugin_items envC6 "/tmp/albert_yt_t" ["x.png"] =
      ⟨none, [], [], none, ["x.png"], [], 0⟩ :=
  c6_empty_query_noop envC6 "/tmp/albert_yt_t" ["x.png"] (by rfl)

/-- C8: cancellation during the debounce loop abandons the query before any
network request with zero items; cancellation detected after the j-th icon
dispatch abandons the query with zero items while the j+1 dispatched
download tasks have still run to completion (their files are on disk);
and the debounce checks (indices below 50) together with the per-dispatch
checks are the only samples of the flag the outcome depends on. -/
theorem c8_cancellation :
    (∀ (env : Env) (temp_dir : String) (tc : List String) (i : Nat),
      pyStrip env.query ≠ "" → firstFalse env.isValid 50 = some i →
      plugin_items env temp_dir tc = ⟨none, [], [], none, tc, [], i + 1⟩)
    ∧ (∀ (env : Env) (temp_dir : String) (tc : List String) (blob : String)
        (idata : List ItemData) (logs : List LogEntry) (j : Nat),
      pyStrip env.query ≠ "" → firstFalse env.isValid 50 = none →
      env.matcher env.response = some blob →
      pipeline env blob = .ok (idata, logs) →
      j < idata.length →
      (∀ j', j' < j → env.isValid (50 + j') = true) →
      env.isValid (50 + j) = false →
      (plugin_items env temp_dir tc).yielded = none
      ∧ (plugin_items env temp_dir tc).tempChildren =
          iconWrites env.iconFetch temp_dir (idata.take (j + 1)))
    ∧ (∀ (env : Env) (g : Nat → Bool) (temp_dir : String) (tc : List String),
      (∀ i, i < 50 → env.isValid i = g i) →
      (∀ blob idata logs j, env.matcher env.response = some blob →
        pipeline env blob = .ok (idata, logs) → j < idata.length →
        env.isValid (50 + j) = g (50 + j)) →
      plugin_items { env with isValid := g } temp_dir tc = plugin_items env temp_dir tc) := by
  refine ⟨?_, ?_, ?_⟩
  · intro env temp_dir tc i hq hf
    simp only [plugin_items]
    rw [if_neg hq, hf]
  · intro env temp_dir tc blob idata logs j hq hf hm hp hj hpre hstop
    have e1 := plugin_items_proceed env temp_dir tc hq hf
    rw [hm, matchPhase_some, hp, parsePhase_ok] at e1
    rw [iconLoop_cancel env.isValid env.iconFetch temp_dir j idata 50 hj hpre hstop] at e1
    rw [e1]
    exact ⟨rfl, rfl⟩
  · intro env g temp_dir tc h50 hicon
    have hff : firstFalse g 50 = firstFalse env.isValid 50 :=
      (firstFalseFrom_congr env.isValid g 50 0 (fun k hk1 hk2 => h50 k (by omega))).symm
    by_cases hq : pyStrip env.query = ""
    · have e1 : plugin_items env temp_dir tc = ⟨none, [], [], none, tc, [], 0⟩ := by
        simp only [plugin_items]; rw [if_pos hq]
      have e2 : plugin_items { env with isValid := g } temp_dir tc
          = ⟨none, [], [], none, tc, [], 0⟩ := by
        simp only [plugin_items]
        rw [if_pos (show pyStrip ({ env with isValid := g } : Env).query = "" from hq)]
      rw [e1, e2]
    · cases hf : firstFalse env.isValid 50 with
      | some i =>
        have e1 : plugin_items env temp_dir tc = ⟨none, [], [], none, tc, [], i + 1⟩ := by
          simp only [plugin_items]; rw [if_neg hq, hf]
        have e2 : plugin_items { env with isValid := g } temp_dir tc
            = ⟨none, [], [], none, tc, [], i + 1⟩ := by
          simp only [plugin_items]
          rw [if_neg (show ¬(pyStrip ({ env with isValid := g } : Env).query = "") from hq),
              show firstFalse ({ env with isValid := g } : Env).isValid 50 = some i
                from hff.trans hf]
        rw [e1, e2]
      | none =>
        have e1 := plugin_items_proceed env temp_dir tc hq hf
        have e2 := plugin_items_proceed { env with isValid := g } temp_dir tc hq (hff.trans hf)
        cases hm : env.matcher env.response with
        | none =>
          rw [e1, e2, hm]
          rfl
        | some blob =>
          rw [e1, e2, hm, matchPhase_some, matchPhase_some]
          cases hp : pipeline env blob with
          | error e =>
            rw [show pipeline { env with isValid := g } blob = Except.error e from hp]
            rfl
          | ok pr =>
            obtain ⟨idata, logs⟩ := pr
            rw [show pipeline { env with isValid := g } blob = Except.ok (idata, logs) from hp]
            rw [parsePhase_ok, parsePhase_ok]
            have hIL : iconLoop g 50 env.iconFetch temp_dir idata =
                iconLoop env.isValid 50 env.iconFetch temp_dir idata :=
              (iconLoop_valid_congr env.iconFetch temp_dir env.isValid g idata 50
                (fun j hj => hicon blob idata logs j hm hp hj)).symm
            rw [show iconLoop ({ env with isValid := g } : Env).isValid 50
                ({ env with isValid := g } : Env).iconFetch temp_dir idata =
                iconLoop env.isValid 50 env.iconFetch temp_dir idata from hIL]

/-- C8 witness: cancellation at the fourth debounce check abandons the
concrete query after four sleeps with nothing requested or emitted. -/
theorem c8_cancellation_witness :
    plugin_items envC8 "/tmp/albert_yt_t" [] = ⟨none, [], [], none, [], [], 4⟩ :=
  c8_cancellation.1 envC8 "/tmp/albert_yt_t" [] 3 (by decide) (by rfl)

/-- C9 counterexample: a full query whose extraction fails terminates
without purging the scratch directory — the stale icon from the previous
query is still there at the end, so the directory was not purged at the
start of this query and does not hold only the current query's icons. -/
theorem c9_scratch_dir_counterexample :
    (plugin_items envC9 "/tmp/albert_yt_t" ["stale.png"]).tempChildren = ["stale.png"]
    ∧ (["stale.png"] : List String) ≠ [] :=
  ⟨rfl, by decide⟩

/-- C9 amended: startup sweeps every marked leftover directory and leaves
exactly the one fresh empty scratch directory; every query that reaches
the icon phase purges the directory before writing (its contents afterwards
are exactly that query's icon writes, independent of what was there);
teardown removes every marked directory; but queries that terminate before
the icon phase leave the previous contents in place. -/
theorem c9_amended_scratch_dir :
    (∀ (fs : List (String × List String)) (fresh : String),
      hasTmpMarker fresh = true →
      ((plugin_init fs fresh).1).filter (fun d => hasTmpMarker d.1) = [(fresh, [])])
    ∧ (∀ (env : Env) (temp_dir : String) (tc : List String) (blob : String)
        (idata : List ItemData) (logs : List LogEntry),
      pyStrip env.query ≠ "" → firstFalse env.isValid 50 = none →
      env.matcher env.response = some blob →
      pipeline env blob = .ok (idata, logs) →
      (plugin_items env temp_dir tc).tempChildren =
        (iconLoop env.isValid 50 env.iconFetch temp_dir idata).2.1)
    ∧ (∀ fs : List (String × List String),
      (plugin_del fs).filter (fun d => hasTmpMarker d.1) = []) := by
  refine ⟨?_, ?_, filter_marker_clean⟩
  · intro fs fresh hfresh
    simp only [plugin_init]
    rw [List.filter_append, filter_marker_clean]
    simp [hfresh]
  · intro env temp_dir tc blob idata logs hq hf hm hp
    have e1 := plugin_items_proceed env temp_dir tc hq hf
    rw [hm, matchPhase_some, hp, parsePhase_ok] at e1
    rw [e1]
    rcases hIL : iconLoop env.isValid 50 env.iconFetch temp_dir idata with ⟨p, w, c⟩
    cases c <;> rfl

/-- C9 amended witness: startup with a leftover crashed-instance directory
sweeps it and creates exactly the one fresh scratch directory. -/
theorem c9_amended_scratch_dir_witness :
    ((plugin_init [("albert_yt_old", ["x.png"]), ("other", [])] "albert_yt_new").1).filter
      (fun d => hasTmpMarker d.1) = [("albert_yt_new", [])] :=
  c9_amended_scratch_dir.1 [("albert_yt_old", ["x.png"]), ("other", [])] "albert_yt_new" (by decide)

end Yt
